import Mathlib

/-!
Verification of the CERN OAuth contrib module
(invenio_oauthclient/contrib/cern.py and serializers.py).

The Python source is shallowly embedded: pure functions become Lean
functions, `datetime.utcnow()` becomes an explicit parameter (microseconds
since the Unix epoch), the flask session and the flask-principal identity
become an explicit state record, and fallible Python code returns
`Except PyErr`.  The repository runs under Python 2 (serializers.py keeps
the `from __future__ import absolute_import, print_function` compatibility
header), so mixed-type comparisons such as `None > "..."` follow the
Python 2 total order in which `None` is smaller than every string.
-/

set_option maxRecDepth 4000
set_option linter.unusedVariables false

namespace CernOAuth

/-- Zero-pad the decimal representation of `n` on the left to width `w`. -/
def padNat (w : Nat) (n : Nat) : String :=
  let s := toString n
  String.mk (List.replicate (w - s.length) '0') ++ s

/-- Convert a count of days since 1970-01-01 to a (year, month, day) civil
date, by the standard era/day-of-era civil-from-days computation. -/
def civilFromDays (days : Nat) : Nat × Nat × Nat :=
  let z := days + 719468
  let era := z / 146097
  let doe := z % 146097
  let yoe := (doe - doe / 1460 + doe / 36524 - doe / 146096) / 365
  let doy := doe - (365 * yoe + yoe / 4 - yoe / 100)
  let mp := (5 * doy + 2) / 153
  let d := doy - (153 * mp + 2) / 5 + 1
  let m := if mp < 10 then mp + 3 else mp - 9
  let y := era * 400 + yoe + (if m ≤ 2 then 1 else 0)
  (y, m, d)

/-- The string `datetime.isoformat()` produces for a UTC instant given as
microseconds since the Unix epoch: `YYYY-MM-DDTHH:MM:SS`, with a `.ffffff`
fraction appended exactly when the microsecond part is nonzero. -/
def isoformat (t : Nat) : String :=
  let micro := t % 1000000
  let secs := t / 1000000
  let s := secs % 60
  let minutes := secs / 60
  let mi := minutes % 60
  let hours := minutes / 60
  let h := hours % 24
  let days := hours / 24
  let ymd := civilFromDays days
  padNat 4 ymd.1 ++ "-" ++ padNat 2 ymd.2.1 ++ "-" ++ padNat 2 ymd.2.2 ++ "T" ++
    padNat 2 h ++ ":" ++ padNat 2 mi ++ ":" ++ padNat 2 s ++
    (if micro = 0 then "" else "." ++ padNat 6 micro)

/-- Python `datetime + timedelta` on the microseconds-since-epoch
representation (the repository only uses in-range results). -/
def addDelta (t : Nat) (d : Int) : Nat := ((t : Int) + d).toNat

/-- Lexicographic-by-code-point comparison of two character lists: the first
differing position decides; a proper initial segment is smaller. -/
def charListLt : List Char → List Char → Bool
  | [], [] => false
  | [], _ :: _ => true
  | _ :: _, [] => false
  | a :: as, b :: bs =>
    if a.toNat < b.toNat then true
    else if b.toNat < a.toNat then false
    else charListLt as bs

/-- Python string comparison `a < b`: lexicographic by code point. -/
def pyStrLt (a b : String) : Bool := charListLt a.data b.data

/-- Python string comparison `a > b`. -/
def pyStrGt (a b : String) : Bool := pyStrLt b a

/-- ASCII lowercasing of one character (A-Z to a-z, the rest unchanged). -/
def lowerChar (c : Char) : Char :=
  if 65 ≤ c.toNat ∧ c.toNat ≤ 90 then Char.ofNat (c.toNat + 32) else c

/-- Python 2 `s.lower()`: under the C locale it lowercases exactly the ASCII
letters. -/
def pyLower (s : String) : String := String.mk (s.data.map lowerChar)

/-- Python 2 comparison `x > b` where `x` is a string or `None`.  Under
Python 2 (which this repository targets) `None` compares less than every
string, so `None > b` is `False`. -/
def pyGtNoneOrStr : Option String → String → Bool
  | none, _ => false
  | some a, b => pyStrGt a b

/-- Function `should_refresh_groups` of cern.py, with `datetime.utcnow()`
supplied as the explicit parameter `now`.  The source's
`if updated is None` branch is dead (`utcnow()` is never `None`) and is
dropped.  `refresh_timedelta` is in microseconds, `none` meaning the Python
default `None`. -/
def should_refresh_groups (now : Nat) (extra_data_updated : Option String)
    (refresh_timedelta : Option Int) : Bool :=
  let updated := now
  let modified_since :=
    match refresh_timedelta with
    | none => updated
    | some d => addDelta updated d
  let modified_since := isoformat modified_since
  let last_update := extra_data_updated
  if pyGtNoneOrStr last_update modified_since then false else true

/-- The staleness threshold the source computes before comparing:
`(datetime.utcnow() + refresh_timedelta).isoformat()` (no addition when the
timedelta is `None`). -/
def refresh_threshold (now : Nat) : Option Int → String
  | none => isoformat now
  | some d => isoformat (addDelta now d)

/-- The default refresh window `timedelta(minutes=-5)`, in microseconds. -/
def OAUTHCLIENT_CERN_REFRESH_TIMEDELTA : Int := -(5 * 60 * 1000000)

/-- A fixed sample instant used by concrete instances:
2020-06-15T12:00:00 UTC as microseconds since the Unix epoch. -/
def sampleNow : Nat := 1592222400000000

/-- Function `fetch_groups` of cern.py with the two configurable deny-lists
passed explicitly (the source reads them from `current_app.config`, falling
back to the module-level defaults).  A compiled regex of the regex deny-list
is modelled by its `re.match` semantics: the Bool says whether the pattern
matches at the start of the given string. -/
def fetch_groups (hidden_groups : List String)
    (hidden_groups_re : List (String → Bool)) (groups : List String) :
    List String :=
  let groups1 := groups.filter (fun group => !(hidden_groups.contains group))
  let filter_groups :=
    hidden_groups_re.foldl (fun acc regexp => acc ++ groups1.filter regexp) []
  groups1.filter (fun group => !(filter_groups.contains group))

/-- The default `OAUTHCLIENT_CERN_HIDDEN_GROUPS` deny-list of cern.py. -/
def OAUTHCLIENT_CERN_HIDDEN_GROUPS : List String :=
  ["All Exchange People",
   "CERN Users",
   "cern-computing-postmasters",
   "cern-nice2000-postmasters",
   "CMF FrontEnd Users",
   "CMF_NSC_259_NSU",
   "Domain Users",
   "GP Apply Favorites Redirection",
   "GP Apply NoAdmin",
   "info-terminalservices",
   "info-terminalservices-members",
   "IT Web IT",
   "NICE Deny Enforce Password-protected Screensaver",
   "NICE Enforce Password-protected Screensaver",
   "NICE LightWeight Authentication WS Users",
   "NICE MyDocuments Redirection (New)",
   "NICE Profile Redirection",
   "NICE Terminal Services Users",
   "NICE Users",
   "NICE VPN Users"]

/-- Python exception classes raised by the embedded code. -/
inductive PyErr where
  | indexError
  | typeError
  | keyError
  | attributeError
deriving DecidableEq

/-- A flask-principal need as used by cern.py: `UserNeed(email)` or
`RoleNeed(value)`. -/
inductive Need where
  | user (email : String)
  | role (value : String)
deriving DecidableEq

/-- The state touched by extend_identity and disconnect_identity: the
identity's `provides` set (a Python set, modelled as a `Finset`) and the
`session[OAUTHCLIENT_CERN_SESSION_KEY]` slot (`none` when the key is
absent). -/
structure IdentityState where
  provides : Finset Need
  cern_provides : Option (Finset Need)
deriving DecidableEq

/-- The session key `identity.cern_provides` of cern.py. -/
def OAUTHCLIENT_CERN_SESSION_KEY : String := "identity.cern_provides"

/-- The claim set extend_identity computes:
`set([UserNeed(current_user.email)] + [RoleNeed("{0}@cern.ch".format(name.lower())) for name in groups])`. -/
def cernProvides (email : String) (groups : List String) : Finset Need :=
  (Need.user email ::
    groups.map (fun name => Need.role (pyLower name ++ "@cern.ch"))).toFinset

/-- Function `extend_identity` of cern.py, with `current_user.email` passed
explicitly: unions the computed claim set into `identity.provides` and
overwrites the session slot with exactly that set. -/
def extend_identity (email : String) (st : IdentityState) (groups : List String) :
    IdentityState :=
  let provides := cernProvides email groups
  { provides := st.provides ∪ provides, cern_provides := some provides }

/-- Function `disconnect_identity` of cern.py: pops the session slot and
subtracts it from `identity.provides`.  The pop default is the dict `{}`,
and `identity.provides -= {}` raises TypeError (an in-place set difference
needs a set operand), so with the key absent the function raises; the
in-place operator raises before any assignment, leaving `provides`
untouched. -/
def disconnect_identity (st : IdentityState) : Except PyErr IdentityState :=
  match st.cern_provides with
  | some provides => .ok { provides := st.provides \ provides, cern_provides := none }
  | none => .error .typeError

/-- One element of `response.data`: a claim record with a Type and a
Value. -/
structure ClaimItem where
  type : String
  value : String
deriving DecidableEq

/-- The upstream REST response as used by the source: `status` is checked by
get_resource, `code` is `response._resp.code` as checked by
get_dict_from_response (`none` models a falsy `_resp`), `data` is the claim
list. -/
structure RestResponse where
  status : Nat
  code : Option Nat
  data : List ClaimItem
deriving DecidableEq

/-- The schema URI constant `REMOTE_APP_RESOURCE_SCHEMA` of cern.py. -/
def REMOTE_APP_RESOURCE_SCHEMA : String := "http://schemas.xmlsoap.org/claims/"

/-- Worker for `pyReplaceEmpty`: removes every occurrence of the nonempty
pattern, scanning left to right without overlap; the fuel is the length of
the scanned list. -/
def removeAllAux (pat : List Char) : Nat → List Char → List Char
  | 0, _ => []
  | _ + 1, [] => []
  | fuel + 1, c :: rest =>
    if pat.isPrefixOf (c :: rest) && !pat.isEmpty then
      removeAllAux pat fuel (List.drop (pat.length - 1) rest)
    else
      c :: removeAllAux pat fuel rest

/-- Python `s.replace(pat, "")`: every occurrence of `pat` anywhere in `s`
is removed (leftmost first, without overlap). -/
def pyReplaceEmpty (s pat : String) : String :=
  String.mk (removeAllAux pat.data s.data.length s.data)

/-- Python `result.setdefault(k, list()); result[k].append(v)` on an
insertion-ordered dict modelled as an association list. -/
def dictAppend : List (String × List String) → String → String →
    List (String × List String)
  | [], k, v => [(k, [v])]
  | (k0, vs) :: rest, k, v =>
    if k0 = k then (k0, vs ++ [v]) :: rest else (k0, vs) :: dictAppend rest k v

/-- The accumulation loop of get_dict_from_response over `response.data`. -/
def normalizeData (data : List ClaimItem) : List (String × List String) :=
  data.foldl
    (fun result i =>
      dictAppend result (pyReplaceEmpty i.type REMOTE_APP_RESOURCE_SCHEMA) i.value)
    []

/-- Function `get_dict_from_response` of cern.py: the empty dict when
`response._resp` is truthy with `code > 400`, otherwise the values grouped
by schema-replaced Type. -/
def get_dict_from_response (response : RestResponse) : List (String × List String) :=
  match response.code with
  | some c => if c > 400 then [] else normalizeData response.data
  | none => normalizeData response.data

/-- The claim's reading of the key computation: the schema URI removed only
when it stands at the start of the Type, the Type left unchanged
otherwise.  This follows the spec's words, for comparison with the
source's `replace`-everywhere key. -/
def stripSchemaLeading (t : String) : String :=
  if REMOTE_APP_RESOURCE_SCHEMA.data.isPrefixOf t.data then
    String.mk (t.data.drop REMOTE_APP_RESOURCE_SCHEMA.data.length)
  else t

/-- The normalizer as the claim words it: like `normalizeData` but with the
schema URI stripped only as a leading piece of the Type. -/
def normalizeDataStripLeading (data : List ClaimItem) : List (String × List String) :=
  data.foldl
    (fun result i => dictAppend result (stripSchemaLeading i.type) i.value)
    []

/-- The Group-claims scenario response of the spec: two Group claims with
values admins and users, on a successful response. -/
def groupClaimsResponse : RestResponse :=
  ⟨200, some 200,
   [⟨REMOTE_APP_RESOURCE_SCHEMA ++ "Group", "admins"⟩,
    ⟨REMOTE_APP_RESOURCE_SCHEMA ++ "Group", "users"⟩]⟩

/-- A successful response whose single claim carries the schema URI at the
end of its Type rather than at the start. -/
def schemaInsideResponse : RestResponse :=
  ⟨200, some 200, [⟨"x" ++ REMOTE_APP_RESOURCE_SCHEMA, "v"⟩]⟩

/-- A Python value of the shapes get_user_resources_ldap handles: the LDAP
result nesting of tuples, lists and attribute dicts, bytes values (carrying
their decoded text), plus str, int and None. -/
inductive PyVal where
  | pynone
  | pyint (n : Int)
  | pystr (s : String)
  | pybytes (s : String)
  | pylist (xs : List PyVal)
  | pytuple (xs : List PyVal)
  | pydict (kvs : List (String × PyVal))

/-- Python truthiness of a value. -/
def pyTruthy : PyVal → Bool
  | .pynone => false
  | .pyint n => n ≠ 0
  | .pystr s => s ≠ ""
  | .pybytes s => s ≠ ""
  | .pylist xs => !xs.isEmpty
  | .pytuple xs => !xs.isEmpty
  | .pydict kvs => !kvs.isEmpty

/-- Python subscript `x[i]` for a nonnegative index: IndexError past the end
of a sequence, KeyError on a dict (whose keys here are strings), TypeError
on non-subscriptable values. -/
def pyIndex : PyVal → Nat → Except PyErr PyVal
  | .pylist xs, i =>
    match xs.get? i with
    | some v => .ok v
    | none => .error .indexError
  | .pytuple xs, i =>
    match xs.get? i with
    | some v => .ok v
    | none => .error .indexError
  | .pystr s, i =>
    match s.data.get? i with
    | some c => .ok (.pystr (String.mk [c]))
    | none => .error .indexError
  | .pybytes s, i =>
    match s.data.get? i with
    | some c => .ok (.pybytes (String.mk [c]))
    | none => .error .indexError
  | .pydict _, _ => .error .keyError
  | .pynone, _ => .error .typeError
  | .pyint _, _ => .error .typeError

/-- Python subscript `x["key"]`: KeyError on a dict without the key,
TypeError on sequences and scalars. -/
def pyGetItem : PyVal → String → Except PyErr PyVal
  | .pydict kvs, k =>
    match kvs.lookup k with
    | some v => .ok v
    | none => .error .keyError
  | _, _ => .error .typeError

/-- Python `x.get(key, default)`: only dicts have `get`; every other value
raises AttributeError. -/
def pyDictGet : PyVal → String → PyVal → Except PyErr PyVal
  | .pydict kvs, k, dflt => .ok ((kvs.lookup k).getD dflt)
  | _, _, _ => .error .attributeError

/-- Python `.decode("utf-8")`: defined on bytes (and the Python 2 str);
AttributeError otherwise. -/
def pyDecode : PyVal → Except PyErr String
  | .pybytes s => .ok s
  | .pystr s => .ok s
  | _ => .error .attributeError

/-- Python `b.split(sep)` for a one-character separator on bytes or str;
AttributeError otherwise. -/
def pySplit : PyVal → Char → Except PyErr (List PyVal)
  | .pybytes s, sep => .ok ((s.split (fun c => c = sep)).map PyVal.pybytes)
  | .pystr s, sep => .ok ((s.split (fun c => c = sep)).map PyVal.pystr)
  | _, _ => .error .attributeError

/-- Python iteration over a value as a list of items; TypeError on
non-iterables. -/
def pyIter : PyVal → Except PyErr (List PyVal)
  | .pylist xs => .ok xs
  | .pytuple xs => .ok xs
  | .pybytes s => .ok (s.data.map (fun c => .pybytes (String.mk [c])))
  | .pystr s => .ok (s.data.map (fun c => .pystr (String.mk [c])))
  | .pydict kvs => .ok (kvs.map (fun kv => .pystr kv.1))
  | .pynone => .error .typeError
  | .pyint _ => .error .typeError

/-- The loop body of the memberOf loop:
`group.split(b",")[0].split(b"=")[1].decode("utf-8")`. -/
def extractGroupName (g : PyVal) : Except PyErr String := do
  let parts ← pySplit g ','
  let first ←
    match parts.get? 0 with
    | some v => pure v
    | none => Except.error PyErr.indexError
  let parts2 ← pySplit first '='
  let second ←
    match parts2.get? 1 with
    | some v => pure v
    | none => Except.error PyErr.indexError
  pyDecode second

/-- The memberOf loop of get_user_resources_ldap, keeping the names appended
before a raising iteration (the `groups` list mutated so far survives the
except clause). -/
def groupsLoop : List PyVal → List String → List String × Option PyErr
  | [], acc => (acc, none)
  | g :: rest, acc =>
    match extractGroupName g with
    | .ok name => groupsLoop rest (acc ++ [name])
    | .error e => (acc, some e)

/-- The try block of get_user_resources_ldap: the chain of rebindings
`res = lc.result(); res = res[1]; res = res[0][1]; mail = res["mail"][0]`,
the case-insensitive mail check and the memberOf loop.  Returns the value
`res` holds when the block ends (normally or by raising), the groups
collected, and the raised error if any. -/
def ldapTryBlock (email : String) (ldapResult : PyVal) :
    PyVal × List String × Option PyErr :=
  let res := ldapResult
  match pyIndex res 1 with
  | .error e => (res, [], some e)
  | .ok res1 =>
    match pyIndex res1 0 with
    | .error e => (res1, [], some e)
    | .ok r0 =>
      match pyIndex r0 1 with
      | .error e => (res1, [], some e)
      | .ok res2 =>
        match pyGetItem res2 "mail" with
        | .error e => (res2, [], some e)
        | .ok mailList =>
          match pyIndex mailList 0 with
          | .error e => (res2, [], some e)
          | .ok mail =>
            match pyDecode mail with
            | .error e => (res2, [], some e)
            | .ok mailStr =>
              if pyLower mailStr = pyLower email then
                match pyGetItem res2 "memberOf" with
                | .error e => (res2, [], some e)
                | .ok mo =>
                  match pyIter mo with
                  | .error e => (res2, [], some e)
                  | .ok items =>
                    let lr := groupsLoop items []
                    (res2, lr.1, lr.2)
              else (res2, [], none)

/-- The inner helper get_ldap_field_str of get_user_resources_ldap:
`value = res.get(key, [None])[0]; [value.decode("utf-8")] if value else [None]`. -/
def get_ldap_field_str (res : PyVal) (key : String) :
    Except PyErr (List (Option String)) := do
  let v0 ← pyDictGet res key (.pylist [.pynone])
  let value ← pyIndex v0 0
  if pyTruthy value then
    let s ← pyDecode value
    pure [some s]
  else
    pure [none]

/-- The dict literal get_user_resources_ldap returns. -/
structure LdapRecord where
  Group : List String
  EmailAddress : List String
  uidNumber : List (Option String)
  CommonName : List (Option String)
  Firstname : List (Option String)
  Lastname : List (Option String)
  DisplayName : List (Option String)
  Building : List (Option String)
  Department : List (Option String)
  PersonID : List (Option String)
  IdentityClass : List (Option String)
deriving DecidableEq

/-- Result of get_user_resources_ldap: the `jsonify([])` response the
empty-email branch returns, or the returned dict. -/
inductive LdapOut where
  | jsonEmptyList
  | record (r : LdapRecord)
deriving DecidableEq

/-- The final dict construction of get_user_resources_ldap, evaluated in the
source's field order (`uidNumber` first; all field reads fail with
AttributeError at once when `res` is not a dict). -/
def buildRecord (email : String) (res : PyVal) (groups : List String) :
    Except PyErr LdapOut := do
  let uid ← get_ldap_field_str res "uidNumber"
  let cn ← get_ldap_field_str res "cn"
  let dn ← get_ldap_field_str res "displayName"
  let bld ← get_ldap_field_str res "physicalDeliveryOfficeName"
  let dep ← get_ldap_field_str res "department"
  let pid ← get_ldap_field_str res "employeeID"
  pure (.record
    { Group := groups
      EmailAddress := [email]
      uidNumber := uid
      CommonName := cn
      Firstname := dn
      Lastname := dn
      DisplayName := dn
      Building := bld
      Department := dep
      PersonID := pid
      IdentityClass := dep })

/-- Function `get_user_resources_ldap` of cern.py, with the user's email and
the LDAP search response (`lc.result()`) as explicit parameters; connection
setup and the query string are outside the model.  Only IndexError and
TypeError are caught by the except clause; every other error propagates. -/
def get_user_resources_ldap (email : String) (ldapResult : PyVal) :
    Except PyErr LdapOut :=
  if email = "" then .ok .jsonEmptyList
  else
    let tb := ldapTryBlock email ldapResult
    match tb.2.2 with
    | some e =>
      if e = .indexError ∨ e = .typeError then buildRecord email tb.1 tb.2.1
      else .error e
    | none => buildRecord email tb.1 tb.2.1

/-- A network side effect of get_resource. -/
inductive NetCall where
  | restGet
  | ldapSearch
deriving DecidableEq

/-- Everything outside the session that one get_resource call depends on:
the REST response, whether the local user is authenticated, and the dict
the LDAP fallback would produce for the current user. -/
structure FetchEnv where
  response : RestResponse
  authenticated : Bool
  ldapResult : List (String × List String)
deriving DecidableEq

/-- The network part of get_resource, reached when the popped cache slot was
absent or falsy: REST call, then on non-200 the LDAP fallback for an
authenticated user, else `abort(400)`.  Returns the resource, the new cache
slot and the network calls made. -/
def restPath (env : FetchEnv) :
    Except Nat (List (String × List String) × Option (List (String × List String)) × List NetCall) :=
  if env.response.status = 200 then
    let d := get_dict_from_response env.response
    .ok (d, some d, [.restGet])
  else if env.authenticated then
    .ok (env.ldapResult, none, [.restGet, .ldapSearch])
  else .error 400

/-- Function `get_resource` of cern.py over an explicit per-request cache
slot (`session["cern_resource"]`): the slot is popped first and returned
when truthy; `abort(400)` is the error case. -/
def get_resource (env : FetchEnv) (cache : Option (List (String × List String))) :
    Except Nat (List (String × List String) × Option (List (String × List String)) × List NetCall) :=
  match cache with
  | some r => if !r.isEmpty then .ok (r, none, []) else restPath env
  | none => restPath env

/-- Two successive get_resource calls within one request: the second call
receives the cache slot the first call left behind; the traces are
concatenated. -/
def get_resource_twice (env : FetchEnv) (cache : Option (List (String × List String))) :
    Except Nat (List (String × List String) × Option (List (String × List String)) × List NetCall) :=
  match get_resource env cache with
  | .error n => .error n
  | .ok (_r1, cache1, t1) =>
    match get_resource env cache1 with
    | .error n => .error n
    | .ok (r2, cache2, t2) => .ok (r2, cache2, t1 ++ t2)

/-- A fetch environment whose REST endpoint fails (HTTP 500) for an
authenticated user, sending every call down the LDAP fallback. -/
def fallbackEnv : FetchEnv :=
  ⟨⟨500, some 500, []⟩, true, [("EmailAddress", ["a@b.com"])]⟩

/-- An LDAP search response holding one well-formed entry: a result tuple
whose entry list carries a single (dn, attributes) pair; the attribute dict
has list-of-bytes values for mail, memberOf and the requested profile
fields (and no cn key); this is the entry's attribute dict. -/
def mkEntryKvs (m u nm bld dep pid : String) (mo : List PyVal) :
    List (String × PyVal) :=
  [("mail", .pylist [.pybytes m]),
   ("memberOf", .pylist mo),
   ("uidNumber", .pylist [.pybytes u]),
   ("displayName", .pylist [.pybytes nm]),
   ("physicalDeliveryOfficeName", .pylist [.pybytes bld]),
   ("department", .pylist [.pybytes dep]),
   ("employeeID", .pylist [.pybytes pid])]

/-- The LDAP search response wrapping one `mkEntryKvs` entry: a result
tuple whose entry list carries a single (dn, attributes) pair. -/
def mkLdapEntryResponse (m u nm bld dep pid : String) (mo : List PyVal) : PyVal :=
  .pytuple [.pyint 100, .pylist [.pytuple [.pystr "CN=entry,OU=Users",
    .pydict (mkEntryKvs m u nm bld dep pid mo)]]]

/-- The extra_data snapshot fields the source reads or writes. -/
structure ExtraData where
  external_id : Option String
  groups : List String
  updated : Option String
  person_id : Option String
  identity_class : Option String
  department : Option String
deriving DecidableEq

/-- Python `resource.get(key, [None])[0]` on the canonical resource record:
the stored first value, None for an absent key, IndexError when the stored
list is empty. -/
def resGetFirst (resource : List (String × List String)) (k : String) :
    Except PyErr (Option String) :=
  match resource.lookup k with
  | some [] => .error .indexError
  | some (v :: _) => .ok (some v)
  | none => .ok none

/-- Function `fetch_extra_data` of cern.py: the (person_id, identity_class,
department) triple read from the resource. -/
def fetch_extra_data (resource : List (String × List String)) :
    Except PyErr (Option String × Option String × Option String) := do
  let person_id ← resGetFirst resource "PersonID"
  let identity_class ← resGetFirst resource "IdentityClass"
  let department ← resGetFirst resource "Department"
  pure (person_id, identity_class, department)

/-- Function `account_groups_and_extra_data` of cern.py with utcnow and the
configured deny-lists explicit, using the default serializer
`fetch_extra_data` (the config default).  `resource["Group"]` raises
KeyError when absent.  Returns the new filtered groups and the merged
snapshot (replacing `groups`, `updated` and the serializer fields, keeping
the rest). -/
def account_groups_and_extra_data (now : Nat) (hidden : List String)
    (hiddenRe : List (String → Bool)) (account : ExtraData)
    (resource : List (String × List String)) :
    Except PyErr (List String × ExtraData) := do
  let rawGroups ←
    match resource.lookup "Group" with
    | some gs => pure gs
    | none => Except.error PyErr.keyError
  let groups := fetch_groups hidden hiddenRe rawGroups
  let extra ← fetch_extra_data resource
  pure (groups,
    { account with
        groups := groups
        updated := some (isoformat now)
        person_id := extra.1
        identity_class := extra.2.1
        department := extra.2.2 })

/-- The `identity_changed` hook `on_identity_changed` of cern.py.
Parameters supply the framework state: utcnow, the configured deny-lists
and refresh window, whether the identity is anonymous, the current user's
email, the linked account's snapshot (`none` when no RemoteAccount
matches), the resource get_resource would return, and the identity/session
state.  Returns the resulting snapshot and identity state. -/
def on_identity_changed (now : Nat) (hidden : List String)
    (hiddenRe : List (String → Bool)) (refresh_timedelta : Option Int)
    (anonymous : Bool) (email : String) (account : Option ExtraData)
    (resource : List (String × List String)) (idn : IdentityState) :
    Except PyErr (Option ExtraData × IdentityState) :=
  if anonymous then .ok (account, idn)
  else
    match account with
    | none => .ok (none, idn)
    | some ed =>
      let groups := ed.groups
      let resources_last_updated := ed.updated
      if should_refresh_groups now resources_last_updated refresh_timedelta then
        match account_groups_and_extra_data now hidden hiddenRe ed resource with
        | .error e => .error e
        | .ok (newGroups, ed2) =>
          let groups2 := groups ++ newGroups
          .ok (some ed2, extend_identity email idn groups2)
      else .ok (some ed, extend_identity email idn groups)

/-- Python truthiness of an optional string (`if external_id:`). -/
def pyTruthyOptStr : Option String → Bool
  | none => false
  | some s => s ≠ ""

/-- The persistent store disconnect_handler touches: the external-id ↔ user
links and the linked RemoteAccount of the (user, client key) pair. -/
structure AccountStore where
  links : List (String × String)
  account : Option ExtraData
deriving DecidableEq

/-- Modelled from the spec: `oauth_unlink_external_id` of
invenio_oauthclient.utils is not under src; the spec says disconnect
"removes the external-id link if present", so the (id, method) link entry
is removed from the store. -/
def oauth_unlink_external_id (links : List (String × String)) (id0 method : String) :
    List (String × String) :=
  links.filter (fun l => !(l == (id0, method)))

/-- Modelled from the spec: `RemoteAccount.delete` of invenio_oauthclient
models is not under src; the spec says disconnect "deletes the
linked-account record inside an atomic sub-transaction", so the account
record is removed from the store. -/
def remote_account_delete (store : AccountStore) : AccountStore :=
  { store with account := none }

/-- Outcomes of disconnect_handler. -/
inductive HandlerResult where
  | unauthorizedRedirect
  | settingsRedirect
deriving DecidableEq

/-- Function `disconnect_handler` of cern.py: unauthenticated users are
redirected; otherwise `account.extra_data` is read on the RemoteAccount
lookup result before any existence check, so a missing account is an
attribute access on None and raises AttributeError with the store and
identity untouched (the error case carries both).  When the account
exists, unlink and delete run first, and the disconnect_identity call then
either succeeds (redirect to settings) or raises TypeError on an absent
session role-cache key — after the store was already mutated, with the
identity untouched. -/
def disconnect_handler (authenticated : Bool) (store : AccountStore)
    (idn : IdentityState) :
    Except (PyErr × AccountStore × IdentityState)
      (HandlerResult × AccountStore × IdentityState) :=
  if !authenticated then .ok (.unauthorizedRedirect, store, idn)
  else
    match store.account with
    | none => .error (.attributeError, store, idn)
    | some account =>
      let external_id := account.external_id
      let store1 :=
        if pyTruthyOptStr external_id then
          { store with
              links := oauth_unlink_external_id store.links (external_id.getD "") "cern" }
        else store
      let store2 := remote_account_delete store1
      match disconnect_identity idn with
      | .ok idn2 => .ok (.settingsRedirect, store2, idn2)
      | .error e => .error (e, store2, idn)

/-! Theorems.  Shared helper lemmas come first, then one theorem per claim,
with a witness where the theorem has hypotheses and a counterexample where
the claim as stated fails on the code. -/

lemma mem_foldl_append_filter (re : List (String → Bool)) :
    ∀ (acc l : List String) (g : String),
      (g ∈ re.foldl (fun acc p => acc ++ l.filter p) acc) ↔
        g ∈ acc ∨ (g ∈ l ∧ ∃ p ∈ re, p g = true) := by
  induction re with
  | nil => intro acc l g; simp
  | cons p ps ih =>
    intro acc l g
    rw [List.foldl_cons, ih]
    simp [List.mem_append, List.mem_filter]
    tauto

lemma should_refresh_groups_eq (now : Nat) (u : Option String) (w : Option Int) :
    should_refresh_groups now u w = !(pyGtNoneOrStr u (refresh_threshold now w)) := by
  simp only [should_refresh_groups, refresh_threshold]
  cases w with
  | none => cases h : pyGtNoneOrStr u (isoformat now) <;> simp [h]
  | some d => cases h : pyGtNoneOrStr u (isoformat (addDelta now d)) <;> simp [h]

/-- Claim C1: for every refresh window — `None` as well as any timedelta,
the default of minus 5 minutes included — should_refresh_groups with a
missing last-updated timestamp returns true.  In the source the comparison
`None > modified_since` is the Python 2 mixed-type order, which makes it
false, so the function reaches `return True`. -/
theorem claim_C1 (now : Nat) (refresh_timedelta : Option Int) :
    should_refresh_groups now none refresh_timedelta = true := by
  cases refresh_timedelta <;> rfl

/-- Claim C8: with a present last-updated string, should_refresh_groups
returns false exactly when that string is lexically greater than the ISO
string of now plus the window; with the default minus-5-minutes window,
one minute ago is fresh (false) and ten minutes ago is stale (true). -/
theorem claim_C8 :
    (∀ (now : Nat) (s : String) (w : Option Int),
        should_refresh_groups now (some s) w = false ↔
          pyStrGt s (refresh_threshold now w) = true) ∧
    should_refresh_groups sampleNow
        (some (isoformat (sampleNow - 60 * 1000000)))
        (some OAUTHCLIENT_CERN_REFRESH_TIMEDELTA) = false ∧
    should_refresh_groups sampleNow
        (some (isoformat (sampleNow - 600 * 1000000)))
        (some OAUTHCLIENT_CERN_REFRESH_TIMEDELTA) = true := by
  refine ⟨?_, by decide, by decide⟩
  intro now s w
  rw [should_refresh_groups_eq]
  cases h : pyStrGt s (refresh_threshold now w) <;> simp [pyGtNoneOrStr, h]

/-- Claim C6: fetch_groups keeps exactly the groups that are neither equal
to an exact deny-list entry nor matched at the start by a regex deny-list
pattern, in input order; the empty input yields the empty output (and the
function is total, so no error is raised). -/
theorem claim_C6 (exact_denylist : List String)
    (regex_denylist : List (String → Bool)) (groups : List String) :
    fetch_groups exact_denylist regex_denylist groups =
      groups.filter (fun g =>
        !(exact_denylist.contains g) && !(regex_denylist.any (fun p => p g))) ∧
    fetch_groups exact_denylist regex_denylist [] = [] := by
  have main : ∀ gs : List String,
      fetch_groups exact_denylist regex_denylist gs =
        gs.filter (fun g =>
          !(exact_denylist.contains g) && !(regex_denylist.any (fun p => p g))) := by
    intro gs
    show (gs.filter _).filter _ = _
    rw [List.filter_filter]
    apply List.filter_congr
    intro g hg
    by_cases hex : exact_denylist.contains g = true
    · rw [hex]
      simp only [Bool.not_true, Bool.and_false, Bool.false_and]
    · have hexf : exact_denylist.contains g = false := by
        cases hxx : exact_denylist.contains g
        · rfl
        · exact absurd hxx hex
      have hg1 : g ∈ gs.filter (fun group => !(exact_denylist.contains group)) := by
        rw [List.mem_filter]
        exact ⟨hg, by rw [hexf]; rfl⟩
      have hkey : (regex_denylist.foldl
          (fun acc p =>
            acc ++ (gs.filter (fun group => !(exact_denylist.contains group))).filter p)
          []).contains g = regex_denylist.any (fun p => p g) := by
        cases hre : regex_denylist.any (fun p => p g) with
        | true =>
          exact List.elem_iff.2 ((mem_foldl_append_filter regex_denylist [] _ g).2
            (Or.inr ⟨hg1, List.any_eq_true.1 hre⟩))
        | false =>
          cases hcc : (regex_denylist.foldl
              (fun acc p =>
                acc ++ (gs.filter (fun group => !(exact_denylist.contains group))).filter p)
              []).contains g with
          | false => rfl
          | true =>
            exfalso
            have hm := (mem_foldl_append_filter regex_denylist [] _ g).1
              (List.elem_iff.1 hcc)
            rcases hm with h | ⟨_, p, hp, hpg⟩
            · exact absurd h (List.not_mem_nil g)
            · rw [List.any_eq_true.2 ⟨p, hp, hpg⟩] at hre
              exact Bool.noConfusion hre
      rw [hexf, hkey]
      simp only [Bool.not_false, Bool.and_true, Bool.true_and]
  exact ⟨main groups, main []⟩

/-- Claim C3 counterexample: the round-trip fails when the identity already
provides one of the computed claims before the extension.  Here the
identity already provides the user claim; extend_identity adds nothing new,
and disconnect_identity then removes the pre-existing claim as well, so the
resulting claim set is empty instead of the pre-extension singleton. -/
theorem claim_C3_counterexample :
    disconnect_identity (extend_identity "a@b.com"
        { provides := {Need.user "a@b.com"}, cern_provides := none } []) =
      .ok ⟨∅, none⟩ ∧
    (∅ : Finset Need) ≠ {Need.user "a@b.com"} := by
  constructor
  · rfl
  · decide

/-- Claim C3 (amended): extend_identity followed immediately by
disconnect_identity restores the identity's claim set provided the
pre-extension claim set is disjoint from the computed claim set (the
source's set subtraction also removes computed claims the identity already
had); disconnect_identity removes exactly the claims recorded in the
session role cache, clearing the cache — while with the cache key absent
the pop's dict default makes `identity.provides -= {}` raise TypeError. -/
theorem claim_C3 (email : String) (st : IdentityState) (groups : List String)
    (h : Disjoint st.provides (cernProvides email groups)) :
    disconnect_identity (extend_identity email st groups) =
      .ok ⟨st.provides, none⟩ ∧
    (∀ st2 : IdentityState, ∀ c : Finset Need, st2.cern_provides = some c →
        disconnect_identity st2 = .ok ⟨st2.provides \ c, none⟩) ∧
    (∀ st2 : IdentityState, st2.cern_provides = none →
        disconnect_identity st2 = .error .typeError) := by
  refine ⟨?_, ?_, ?_⟩
  · show Except.ok (⟨(st.provides ∪ cernProvides email groups) \
        cernProvides email groups, none⟩ : IdentityState) = _
    rw [Finset.union_sdiff_cancel_right h]
  · intro st2 c hc
    simp [disconnect_identity, hc]
  · intro st2 hc
    simp [disconnect_identity, hc]

/-- Witness for claim C3 at a concrete disjoint instance. -/
theorem claim_C3_witness :
    Disjoint ({Need.role "zzz@cern.ch"} : Finset Need)
      (cernProvides "a@b.com" ["X"]) ∧
    disconnect_identity (extend_identity "a@b.com"
        ⟨{Need.role "zzz@cern.ch"}, none⟩ ["X"]) =
      .ok ⟨{Need.role "zzz@cern.ch"}, none⟩ :=
  ⟨by decide,
   (claim_C3 "a@b.com" ⟨{Need.role "zzz@cern.ch"}, none⟩ ["X"] (by decide)).1⟩

/-- Claim C7: after two successive extend_identity calls with different
group lists, the session role cache holds exactly the second call's
computed set — the user claim together with one role claim
`name.lower() ++ "@cern.ch"` per group of the second list — a full
replacement rather than a union, and a subsequent disconnect_identity
removes exactly those claims and clears the cache. -/
theorem claim_C7 (email : String) (st : IdentityState) (g1 g2 : List String)
    (h : g1 ≠ g2) :
    (extend_identity email (extend_identity email st g1) g2).cern_provides =
      some (cernProvides email g2) ∧
    disconnect_identity (extend_identity email (extend_identity email st g1) g2) =
      .ok ⟨(extend_identity email (extend_identity email st g1) g2).provides \
        cernProvides email g2, none⟩ :=
  ⟨rfl, rfl⟩

/-- Witness for claim C7 with two concrete distinct group lists. -/
theorem claim_C7_witness :
    (["A"] : List String) ≠ ["B"] ∧
    (extend_identity "a@b.com" (extend_identity "a@b.com" ⟨∅, none⟩ ["A"]) ["B"]).cern_provides =
      some (cernProvides "a@b.com" ["B"]) :=
  ⟨by decide,
   (claim_C7 "a@b.com" ⟨∅, none⟩ ["A"] ["B"] (by decide)).1⟩

lemma lookup_dictAppend (r : List (String × List String)) (k v k2 : String) :
    (dictAppend r k v).lookup k2 =
      if k2 = k then some (((r.lookup k2).getD []) ++ [v]) else r.lookup k2 := by
  induction r with
  | nil =>
    by_cases h : k2 = k
    · subst h; simp [dictAppend, List.lookup]
    · have hb : (k2 == k) = false := beq_eq_false_iff_ne.mpr h
      simp [dictAppend, List.lookup, h, hb]
  | cons hd tl ih =>
    obtain ⟨k0, vs⟩ := hd
    by_cases hk0 : k0 = k
    · subst hk0
      by_cases h2 : k2 = k0
      · subst h2; simp [dictAppend, List.lookup]
      · have hb : (k2 == k0) = false := beq_eq_false_iff_ne.mpr h2
        simp [dictAppend, List.lookup, h2, hb]
    · by_cases h2 : k2 = k0
      · subst h2
        have hne : ¬ k2 = k := fun hcon => hk0 (hcon ▸ rfl)
        simp [dictAppend, List.lookup, hk0, hne]
      · have hb : (k2 == k0) = false := beq_eq_false_iff_ne.mpr h2
        simp [dictAppend, List.lookup, hk0, h2, hb, ih]

lemma lookup_foldl_dictAppend (keyOf : ClaimItem → String) (data : List ClaimItem) :
    ∀ (acc : List (String × List String)) (k : String),
      (data.foldl (fun r i => dictAppend r (keyOf i) i.value) acc).lookup k =
        match acc.lookup k, (data.filter (fun i => keyOf i = k)).map ClaimItem.value with
        | none, [] => none
        | none, vs => some vs
        | some u, vs => some (u ++ vs) := by
  induction data with
  | nil =>
    intro acc k
    cases h : acc.lookup k <;> simp [h]
  | cons i rest ih =>
    intro acc k
    rw [List.foldl_cons, ih, lookup_dictAppend]
    by_cases hk : keyOf i = k
    · have hk2 : k = keyOf i := hk.symm
      rw [if_pos hk2]
      rw [List.filter_cons_of_pos (by simp [hk])]
      cases h : acc.lookup k with
      | none => simp [h, List.append_assoc]
      | some u => simp [h, List.append_assoc]
    · have hk2 : ¬ k = keyOf i := fun hcon => hk hcon.symm
      rw [if_neg hk2]
      rw [List.filter_cons_of_neg (by simp [hk])]

/-- Claim C9 counterexample: the source computes the record key with
`Type.replace(schema, "")`, which removes every occurrence of the schema
URI, not only a leading one.  On a claim whose Type carries the schema URI
at its end, the result keys differ from the keys the claim describes (the
Type with the schema URI stripped as a leading piece), so the claim as
stated fails on this input. -/
theorem claim_C9_counterexample :
    get_dict_from_response schemaInsideResponse ≠
      normalizeDataStripLeading schemaInsideResponse.data ∧
    get_dict_from_response schemaInsideResponse = [("x", ["v"])] := by
  constructor
  · decide
  · decide

/-- Claim C9 (amended): get_dict_from_response returns the empty record
whenever the response carries a status code greater than 400; otherwise it
maps each claim's Type — with every occurrence of the schema URI removed,
not only a leading one — to the list of that Type's values in arrival
order, initializing the list on first occurrence; two Group claims with
values admins then users yield exactly the record Group ↦ [admins,
users]. -/
theorem claim_C9 (response : RestResponse) :
    (∀ c : Nat, response.code = some c → 400 < c →
        get_dict_from_response response = []) ∧
    (∀ c : Nat, response.code = some c → c ≤ 400 → ∀ k : String,
        (get_dict_from_response response).lookup k =
          match (response.data.filter
              (fun i => pyReplaceEmpty i.type REMOTE_APP_RESOURCE_SCHEMA = k)).map
              ClaimItem.value with
          | [] => none
          | vs => some vs) ∧
    get_dict_from_response groupClaimsResponse = [("Group", ["admins", "users"])] := by
  refine ⟨?_, ?_, by decide⟩
  · intro c hc hgt
    simp [get_dict_from_response, hc, hgt]
  · intro c hc hle k
    have hnot : ¬ c > 400 := by omega
    simp only [get_dict_from_response, hc, if_neg hnot]
    have h := lookup_foldl_dictAppend
      (fun i => pyReplaceEmpty i.type REMOTE_APP_RESOURCE_SCHEMA) response.data [] k
    simp only [normalizeData]
    rw [h]
    have h2 : ∀ vs : List String,
        (match (none : Option (List String)), vs with
         | none, [] => none
         | none, vs => some vs
         | some u, vs => some (u ++ vs)) =
          (match vs with
           | [] => none
           | vs => some vs) := by
      intro vs; cases vs <;> rfl
    exact h2 _

/-- Witness for claim C9: the error branch at code 500 and the grouped
lookup on the Group-claims scenario response. -/
theorem claim_C9_witness :
    get_dict_from_response ⟨500, some 500, [⟨"t", "v"⟩]⟩ = [] ∧
    (get_dict_from_response groupClaimsResponse).lookup "Group" =
      match (groupClaimsResponse.data.filter
          (fun i => pyReplaceEmpty i.type REMOTE_APP_RESOURCE_SCHEMA = "Group")).map
          ClaimItem.value with
      | [] => none
      | vs => some vs :=
  ⟨(claim_C9 ⟨500, some 500, [⟨"t", "v"⟩]⟩).1 500 rfl (by decide),
   (claim_C9 groupClaimsResponse).2.1 200 rfl (by decide) "Group"⟩

/-- Claim C4 counterexample: the LDAP fallback branch of get_resource does
not populate the per-request cache slot, so with a failing REST endpoint
and an authenticated user two calls in the same request each perform the
fallback network call — the ldapSearch call appears twice, not at most
once, and the second call repeats the network traffic instead of returning
a cached value. -/
theorem claim_C4_counterexample :
    get_resource_twice fallbackEnv none =
      .ok (fallbackEnv.ldapResult, none,
           [NetCall.restGet, NetCall.ldapSearch, NetCall.restGet, NetCall.ldapSearch]) ∧
    ([NetCall.restGet, NetCall.ldapSearch, NetCall.restGet,
        NetCall.ldapSearch].count NetCall.ldapSearch = 2) :=
  ⟨rfl, rfl⟩

/-- Claim C4 (amended): get_resource pops the per-request cache slot and
returns it when it is non-empty (a popped falsy empty record is discarded
and the lookup restarts); on HTTP 200 it normalizes the response and
populates the slot, so a second call in the same request returns the
cached value with no further network call whenever that value is
non-empty; on non-200 it falls back to the directory lookup for an
authenticated user — this path does not populate the slot, so the fallback
network call recurs for every caller within the request — and aborts with
400 otherwise. -/
theorem claim_C4 (env : FetchEnv) (r : List (String × List String)) :
    (r ≠ [] → get_resource env (some r) = .ok (r, none, [])) ∧
    get_resource env (some []) = restPath env ∧
    (env.response.status = 200 →
        get_resource env none =
          .ok (get_dict_from_response env.response,
               some (get_dict_from_response env.response), [.restGet])) ∧
    (env.response.status ≠ 200 → env.authenticated = true →
        get_resource env none =
          .ok (env.ldapResult, none, [.restGet, .ldapSearch]) ∧
        get_resource_twice env none =
          .ok (env.ldapResult, none,
               [.restGet, .ldapSearch, .restGet, .ldapSearch])) ∧
    (env.response.status ≠ 200 → env.authenticated = false →
        get_resource env none = .error 400) ∧
    (env.response.status = 200 → get_dict_from_response env.response ≠ [] →
        get_resource_twice env none =
          .ok (get_dict_from_response env.response, none, [.restGet])) := by
  have hempty : ∀ l : List (String × List String), l ≠ [] → l.isEmpty = false := by
    intro l hl
    cases l with
    | nil => exact absurd rfl hl
    | cons a t => rfl
  refine ⟨?_, rfl, ?_, ?_, ?_, ?_⟩
  · intro hr
    simp [get_resource, hempty r hr]
  · intro h200
    simp [get_resource, restPath, h200]
  · intro hne hauth
    constructor
    · simp [get_resource, restPath, hne, hauth]
    · simp [get_resource_twice, get_resource, restPath, hne, hauth]
  · intro hne hnauth
    simp [get_resource, restPath, hne, hnauth]
  · intro h200 hd
    simp [get_resource_twice, get_resource, restPath, h200,
      hempty (get_dict_from_response env.response) hd]

/-- Witness for claim C4: a 200 environment exercising the cache-populating
branch and the cached second call. -/
theorem claim_C4_witness :
    get_dict_from_response ⟨200, some 200, [⟨"Group", "admins"⟩]⟩ ≠ [] ∧
    get_resource ⟨⟨200, some 200, [⟨"Group", "admins"⟩]⟩, false, []⟩ none =
      .ok (get_dict_from_response ⟨200, some 200, [⟨"Group", "admins"⟩]⟩,
           some (get_dict_from_response ⟨200, some 200, [⟨"Group", "admins"⟩]⟩),
           [.restGet]) ∧
    get_resource_twice ⟨⟨200, some 200, [⟨"Group", "admins"⟩]⟩, false, []⟩ none =
      .ok (get_dict_from_response ⟨200, some 200, [⟨"Group", "admins"⟩]⟩, none,
           [.restGet]) :=
  ⟨by decide,
   (claim_C4 ⟨⟨200, some 200, [⟨"Group", "admins"⟩]⟩, false, []⟩ []).2.2.1 rfl,
   (claim_C4 ⟨⟨200, some 200, [⟨"Group", "admins"⟩]⟩, false, []⟩ []).2.2.2.2.2 rfl
     (by decide)⟩

lemma except_ok_bind {ε α β : Type} (a : α) (f : α → Except ε β) :
    (Except.ok a >>= f : Except ε β) = f a := rfl

lemma except_map_ok {ε α β : Type} (f : α → β) (a : α) :
    (f <$> Except.ok a : Except ε β) = Except.ok (f a) := rfl

lemma except_pure {ε α : Type} (a : α) :
    (pure a : Except ε α) = Except.ok a := rfl

lemma get_ldap_field_str_bytes (kvs : List (String × PyVal)) (key s : String)
    (hlookup : kvs.lookup key = some (.pylist [.pybytes s])) (hs : s ≠ "") :
    get_ldap_field_str (.pydict kvs) key = .ok [some s] := by
  simp [get_ldap_field_str, pyDictGet, hlookup, pyIndex, pyTruthy, pyDecode, hs,
    except_ok_bind, except_map_ok, except_pure]

lemma get_ldap_field_str_absent (kvs : List (String × PyVal)) (key : String)
    (hlookup : kvs.lookup key = none) :
    get_ldap_field_str (.pydict kvs) key = .ok [none] := by
  simp [get_ldap_field_str, pyDictGet, hlookup, pyIndex, pyTruthy,
    except_ok_bind, except_map_ok, except_pure]

/-- Claim C2 counterexample: an LDAP response carrying an empty entry list
(nothing matched the search).  `res = res[0][1]` raises an IndexError; the
except clause catches it, but `res` is left bound to the empty entry list,
and the field extraction `res.get(...)` then raises an AttributeError that
no handler catches — an exception propagates on a missing response, where
the claim says the result falls back to safe defaults with no exception. -/
theorem claim_C2_counterexample :
    get_user_resources_ldap "a@b.com" (.pytuple [.pyint 101, .pylist []]) =
      .error .attributeError := rfl

/-- Claim C2 (amended): with an empty email, get_user_resources_ldap
returns the jsonify-ed empty list — an empty JSON response, not an empty
canonical resource record.  When the response holds a well-formed first
entry whose mail value does not match the queried email case-insensitively,
no exception propagates: Group falls back to [], but each requested profile
field is still read from the mismatched entry and is [None] only when
absent or empty (CommonName, read from the never-requested cn key, is
always [None]).  When the response is missing or indexable-out-of-range
before the entry's attribute map is bound to res, the caught error leaves
res a non-dict and the field extraction raises an uncaught AttributeError;
an entry dict without a mail key raises an uncaught KeyError. -/
theorem claim_C2 (email m u nm bld dep pid : String) (mo : List PyVal)
    (hemail : email ≠ "") (hm : pyLower m ≠ pyLower email)
    (hu : u ≠ "") (hnm : nm ≠ "") (hbld : bld ≠ "") (hdep : dep ≠ "")
    (hpid : pid ≠ "") :
    (∀ v : PyVal, get_user_resources_ldap "" v = .ok .jsonEmptyList) ∧
    get_user_resources_ldap email (mkLdapEntryResponse m u nm bld dep pid mo) =
      .ok (.record ⟨[], [email], [some u], [none], [some nm], [some nm],
                    [some nm], [some bld], [some dep], [some pid], [some dep]⟩) ∧
    get_user_resources_ldap email (.pytuple [.pyint 101, .pylist []]) =
      .error .attributeError ∧
    get_user_resources_ldap email
        (.pytuple [.pyint 100, .pylist [.pytuple [.pystr "dn",
          .pydict [("memberOf", .pylist [])]]]]) =
      .error .keyError := by
  refine ⟨fun v => rfl, ?_, ?_, ?_⟩
  · have htb : ldapTryBlock email (mkLdapEntryResponse m u nm bld dep pid mo) =
        (.pydict (mkEntryKvs m u nm bld dep pid mo), [], none) := by
      simp [ldapTryBlock, mkLdapEntryResponse, mkEntryKvs, pyIndex, pyGetItem,
        pyDecode, hm]
    simp only [get_user_resources_ldap, if_neg hemail, htb]
    rw [buildRecord]
    rw [get_ldap_field_str_bytes (mkEntryKvs m u nm bld dep pid mo) "uidNumber" u
      (by simp [mkEntryKvs, List.lookup]) hu]
    rw [get_ldap_field_str_absent (mkEntryKvs m u nm bld dep pid mo) "cn"
      (by simp [mkEntryKvs, List.lookup])]
    rw [get_ldap_field_str_bytes (mkEntryKvs m u nm bld dep pid mo) "displayName" nm
      (by simp [mkEntryKvs, List.lookup]) hnm]
    rw [get_ldap_field_str_bytes (mkEntryKvs m u nm bld dep pid mo)
      "physicalDeliveryOfficeName" bld (by simp [mkEntryKvs, List.lookup]) hbld]
    rw [get_ldap_field_str_bytes (mkEntryKvs m u nm bld dep pid mo) "department" dep
      (by simp [mkEntryKvs, List.lookup]) hdep]
    rw [get_ldap_field_str_bytes (mkEntryKvs m u nm bld dep pid mo) "employeeID" pid
      (by simp [mkEntryKvs, List.lookup]) hpid]
    rfl
  · simp only [get_user_resources_ldap, if_neg hemail]
    rfl
  · simp only [get_user_resources_ldap, if_neg hemail]
    rfl

/-- Witness for claim C2 at concrete inputs: a mismatching entry for
a@b.com whose mail is c@d.com, and the empty-email branch. -/
theorem claim_C2_witness :
    ("a@b.com" : String) ≠ "" ∧
    pyLower "C@d.Com" ≠ pyLower "a@b.com" ∧
    get_user_resources_ldap "" .pynone = .ok .jsonEmptyList ∧
    get_user_resources_ldap "a@b.com"
        (mkLdapEntryResponse "C@d.Com" "123" "John Doe" "31" "IT" "42" []) =
      .ok (.record ⟨[], ["a@b.com"], [some "123"], [none], [some "John Doe"],
                    [some "John Doe"], [some "John Doe"], [some "31"],
                    [some "IT"], [some "42"], [some "IT"]⟩) :=
  ⟨by decide, by decide,
   (claim_C2 "a@b.com" "C@d.Com" "123" "John Doe" "31" "IT" "42" []
     (by decide) (by decide) (by decide) (by decide) (by decide) (by decide)
     (by decide)).1 .pynone,
   (claim_C2 "a@b.com" "C@d.Com" "123" "John Doe" "31" "IT" "42" []
     (by decide) (by decide) (by decide) (by decide) (by decide) (by decide)
     (by decide)).2.1⟩

/-- Claim C5: on an identity-changed event for a non-anonymous identity
with a linked account whose data is stale, the group list extended into the
request identity is the previously cached group list appended with the
newly fetched filtered groups, while the persisted snapshot's group list is
replaced by only the newly fetched filtered groups — extend on the identity
path, replace on the snapshot-merge path. -/
theorem claim_C5 (now : Nat) (hidden : List String)
    (hiddenRe : List (String → Bool)) (w : Option Int) (email : String)
    (ed : ExtraData) (resource : List (String × List String))
    (idn : IdentityState) (rawGroups : List String)
    (extra : Option String × Option String × Option String)
    (hstale : should_refresh_groups now ed.updated w = true)
    (hgroup : resource.lookup "Group" = some rawGroups)
    (hextra : fetch_extra_data resource = .ok extra) :
    on_identity_changed now hidden hiddenRe w false email (some ed) resource idn =
      .ok (some { ed with
                    groups := fetch_groups hidden hiddenRe rawGroups
                    updated := some (isoformat now)
                    person_id := extra.1
                    identity_class := extra.2.1
                    department := extra.2.2 },
           extend_identity email idn
             (ed.groups ++ fetch_groups hidden hiddenRe rawGroups)) ∧
    ({ ed with
         groups := fetch_groups hidden hiddenRe rawGroups
         updated := some (isoformat now)
         person_id := extra.1
         identity_class := extra.2.1
         department := extra.2.2 } : ExtraData).groups =
      fetch_groups hidden hiddenRe rawGroups ∧
    (extend_identity email idn
        (ed.groups ++ fetch_groups hidden hiddenRe rawGroups)).provides =
      idn.provides ∪
        cernProvides email (ed.groups ++ fetch_groups hidden hiddenRe rawGroups) := by
  refine ⟨?_, rfl, rfl⟩
  have hacc : account_groups_and_extra_data now hidden hiddenRe ed resource =
      .ok (fetch_groups hidden hiddenRe rawGroups,
           { ed with
               groups := fetch_groups hidden hiddenRe rawGroups
               updated := some (isoformat now)
               person_id := extra.1
               identity_class := extra.2.1
               department := extra.2.2 }) := by
    simp [account_groups_and_extra_data, hgroup, hextra, except_ok_bind,
      except_pure]
  simp [on_identity_changed, hstale, hacc]

/-- Witness for claim C5: a stale snapshot from January refreshed at the
June sample instant; the identity receives old ++ new while the snapshot
keeps only the new filtered groups. -/
theorem claim_C5_witness :
    should_refresh_groups sampleNow (some "2020-01-01T00:00:00")
      (some OAUTHCLIENT_CERN_REFRESH_TIMEDELTA) = true ∧
    ([("Group", [("New Group" : String)])].lookup "Group" = some ["New Group"]) ∧
    fetch_extra_data [("Group", ["New Group"])] = .ok (none, none, none) ∧
    on_identity_changed sampleNow [] [] (some OAUTHCLIENT_CERN_REFRESH_TIMEDELTA)
        false "a@b.com"
        (some ⟨none, ["old"], some "2020-01-01T00:00:00", none, none, none⟩)
        [("Group", ["New Group"])] ⟨∅, none⟩ =
      .ok (some ⟨none, ["New Group"], some (isoformat sampleNow), none, none, none⟩,
           extend_identity "a@b.com" ⟨∅, none⟩ ["old", "New Group"]) :=
  ⟨by decide, by decide, rfl,
   (claim_C5 sampleNow [] [] (some OAUTHCLIENT_CERN_REFRESH_TIMEDELTA) "a@b.com"
     ⟨none, ["old"], some "2020-01-01T00:00:00", none, none, none⟩
     [("Group", ["New Group"])] ⟨∅, none⟩ ["New Group"] (none, none, none)
     (by decide) (by decide) rfl).1⟩

/-- Claim C10: disconnect_handler reads extra_data on the RemoteAccount
lookup result before checking that the account exists, so for an
authenticated user the disconnect flow completes only under the implicit
precondition that a linked account exists: with no linked account the
handler raises AttributeError before any unlink or deletion, leaving the
store and the identity unchanged (in particular it never reaches the
redirect).  When the account exists, unlink and delete run, and the flow
then redirects exactly when the session role-cache key is present — an
absent key raises TypeError at disconnect_identity instead, after the
store mutations. -/
theorem claim_C10 (store : AccountStore) (idn : IdentityState) :
    (store.account = none →
        disconnect_handler true store idn = .error (.attributeError, store, idn)) ∧
    (store.account = none →
        ∀ r : HandlerResult × AccountStore × IdentityState,
          disconnect_handler true store idn ≠ .ok r) ∧
    (∀ acc : ExtraData, ∀ c : Finset Need, store.account = some acc →
        idn.cern_provides = some c →
        disconnect_handler true store idn =
          .ok (.settingsRedirect,
               { links :=
                   if pyTruthyOptStr acc.external_id then
                     oauth_unlink_external_id store.links (acc.external_id.getD "")
                       "cern"
                   else store.links,
                 account := none },
               ⟨idn.provides \ c, none⟩)) ∧
    (∀ acc : ExtraData, store.account = some acc → idn.cern_provides = none →
        disconnect_handler true store idn =
          .error (.typeError,
                  { links :=
                      if pyTruthyOptStr acc.external_id then
                        oauth_unlink_external_id store.links (acc.external_id.getD "")
                          "cern"
                      else store.links,
                    account := none },
                  idn)) := by
  have hbool : ∀ b : Bool, b ≠ true → b = false := by
    intro b hb
    cases hx : b
    · rfl
    · exact absurd hx hb
  refine ⟨?_, ?_, ?_, ?_⟩
  · intro h
    simp [disconnect_handler, h]
  · intro h r
    simp [disconnect_handler, h]
  · intro acc c h hc
    by_cases ht : pyTruthyOptStr acc.external_id = true
    · simp [disconnect_handler, h, hc, remote_account_delete, disconnect_identity, ht]
    · simp [disconnect_handler, h, hc, remote_account_delete, disconnect_identity,
        hbool _ ht]
  · intro acc h hc
    by_cases ht : pyTruthyOptStr acc.external_id = true
    · simp [disconnect_handler, h, hc, remote_account_delete, disconnect_identity, ht]
    · simp [disconnect_handler, h, hc, remote_account_delete, disconnect_identity,
        hbool _ ht]

/-- Witness for claim C10: an authenticated user with no linked account
fails with AttributeError, the store untouched; with a linked account and
a present session role-cache key, the flow unlinks, deletes and
redirects. -/
theorem claim_C10_witness :
    (({ links := [("7", "cern")], account := none } : AccountStore).account = none) ∧
    disconnect_handler true { links := [("7", "cern")], account := none } ⟨∅, none⟩ =
      .error (.attributeError, { links := [("7", "cern")], account := none },
              ⟨∅, none⟩) ∧
    disconnect_handler true
        { links := [("7", "cern")],
          account := some ⟨some "7", [], none, none, none, none⟩ }
        ⟨{Need.role "x@cern.ch"}, some {Need.role "x@cern.ch"}⟩ =
      .ok (.settingsRedirect, { links := [], account := none }, ⟨∅, none⟩) :=
  ⟨rfl,
   (claim_C10 { links := [("7", "cern")], account := none } ⟨∅, none⟩).1 rfl,
   (claim_C10
     { links := [("7", "cern")], account := some ⟨some "7", [], none, none, none, none⟩ }
     ⟨{Need.role "x@cern.ch"}, some {Need.role "x@cern.ch"}⟩).2.2.1
     ⟨some "7", [], none, none, none, none⟩ {Need.role "x@cern.ch"} rfl rfl⟩

end CernOAuth
